import Mathlib

/-!
Shallow embedding of the burned-area orchestration scripts
(scripts/do_burned_area.py, scripts/boosted_regression_tree/
generate_boosted_regression_config.py, scripts/boosted_regression_tree/
do_boosted_regression.py).

Pure string/arithmetic helpers mirror the Python operations used by the
scripts (os.path.basename, str.replace, slicing, int(), rstrip, the
percent-format %03d).  Filesystem and subprocess effects are modelled by
environment oracles (answers to os.path.exists queries, statuses returned
by the delegated subsystems, the lines read from the list files), and the
process-wide working directory and the sequence of delegated stage
invocations are tracked explicitly in the result of each modelled
function.
-/

namespace BurnedArea

/-- Status code SUCCESS = 0 from do_burned_area.py. -/
def SUCCESS : Nat := 0

/-- Status code ERROR = 1 from do_burned_area.py. -/
def ERROR : Nat := 1

/-- Python os.path.basename for forward-slash paths: the part after the
last slash (the scripts only ever build slash-separated paths). -/
def basename (s : String) : String :=
  String.mk (s.toList.foldl (fun acc c => if c = '/' then [] else acc ++ [c]) [])

/-- Left-to-right removal of every occurrence of the four characters
".xml", mirroring Python str.replace with the xml suffix pattern and an
empty replacement. -/
def stripXml : List Char → List Char
  | '.' :: 'x' :: 'm' :: 'l' :: cs => stripXml cs
  | c :: cs => c :: stripXml cs
  | [] => []

/-- Python s.rstrip with a newline argument: remove every trailing
newline character. -/
def rstripLf (s : String) : String :=
  String.mk (((s.toList.reverse).dropWhile (fun c => c = '\n')).reverse)

/-- Python slice s[a:b] (with 0 ≤ a ≤ b) on a string. -/
def pySlice (s : String) (a b : Nat) : String :=
  String.mk ((s.toList.drop a).take (b - a))

/-- Value of one decimal digit character (code points 48-57), none for a
non-digit. -/
def digitVal (c : Char) : Option Nat :=
  if 48 ≤ c.toNat ∧ c.toNat ≤ 57 then some (c.toNat - 48) else none

/-- Accumulating decimal reader over a character list; none as soon as a
non-digit appears (Python int() raises ValueError there). -/
def digitsVal : List Char → Nat → Option Nat
  | [], acc => some acc
  | c :: cs, acc =>
    match digitVal c with
    | none => none
    | some d => digitsVal cs (acc * 10 + d)

/-- Python int() restricted to the non-negative all-digit strings the
scripts feed it; none models the ValueError raised on anything else
(in particular on the empty string). -/
def parseNat (s : String) : Option Nat :=
  if s.toList.isEmpty then none else digitsVal s.toList 0

/-- scene_name = os.path.basename(curr_file).replace with the xml suffix
removed (do_burned_area.py lines 357-358). -/
def sceneName (f : String) : String :=
  String.mk (stripXml (basename f).toList)

/-- path = int(scene_name[3:6]) (do_burned_area.py line 362). -/
def scenePath (f : String) : Option Nat :=
  parseNat (pySlice (sceneName f) 3 6)

/-- row = int(scene_name[6:9]) (do_burned_area.py line 363). -/
def sceneRow (f : String) : Option Nat :=
  parseNat (pySlice (sceneName f) 6 9)

/-- year = int(scene_name[9:13]) (do_burned_area.py lines 367, 452). -/
def sceneYear (f : String) : Option Nat :=
  parseNat (pySlice (sceneName f) 9 13)

/-- Python percent-format %03d for a non-negative value: zero-pad to
width three. -/
def format3 (n : Nat) : String :=
  if n < 10 then "00" ++ toString n
  else if n < 100 then "0" ++ toString n
  else toString n

/-- The start_year/end_year fold of do_burned_area.py lines 350-371: for
each line, rstrip the newline, parse the year at slice [9:13] of the
scene name, lower start_year and raise end_year as the source does; none
models the uncaught ValueError when a year fails to parse. -/
def scanYears : List String → Nat → Nat → Option (Nat × Nat)
  | [], sy, ey => some (sy, ey)
  | f :: rest, sy, ey =>
    match sceneYear (rstripLf f) with
    | none => none
    | some y => scanYears rest (if y < sy then y else sy) (if ey < y then y else ey)

/-- The path/row extraction of do_burned_area.py lines 360-363: both are
read from the first list entry only. -/
def stackPathRow : List String → Option (Nat × Nat)
  | [] => none
  | f :: _ =>
    match scenePath (rstripLf f), sceneRow (rstripLf f) with
    | some p, some r => some (p, r)
    | _, _ => none

/-- The per-line year parses of the stack, used to state the min/max
property of scanYears. -/
def stackYears : List String → Option (List Nat)
  | [] => some []
  | l :: rest =>
    match sceneYear (rstripLf l), stackYears rest with
    | some y, some ys => some (y :: ys)
    | _, _ => none

/-- The work-queue load loop of do_burned_area.py lines 445-460: rstrip
each line of the filtered list, parse its year, skip the scene when the
year equals start_year, otherwise enqueue it; none models the uncaught
ValueError on an unparsable year. -/
def buildWorkItems : List String → Nat → Option (List String)
  | [], _ => some []
  | l :: rest, sy =>
    match sceneYear (rstripLf l) with
    | none => none
    | some y =>
      match buildWorkItems rest sy with
      | none => none
      | some tail =>
        if y = sy then some tail else some (rstripLf l :: tail)

/-- The result-collection loop of do_burned_area.py lines 476-481 run
against the arrival-ordered result-queue contents: some true when all
requested results were SUCCESS, some false when a non-SUCCESS result
makes the loop return early, none when the queue runs out of results
(the blocking get would hang). -/
def collectResults : List Nat → Nat → Option Bool
  | _, 0 => some true
  | [], _ + 1 => none
  | s :: rest, k + 1 => if s = SUCCESS then collectResults rest k else some false

/-- Number of result_queue.get calls the collection loop of
do_burned_area.py lines 476-481 performs before returning. -/
def collectCount : List Nat → Nat → Nat
  | _, 0 => 0
  | [], _ + 1 => 0
  | s :: rest, k + 1 => 1 + (if s = SUCCESS then collectCount rest k else 0)

/-- Delegated operations of runBurnedArea, recorded in invocation
order.  mkOutputDir is the os.makedirs call on a missing output
directory (mode 493 = octal 755); the rest are the processing stages. -/
inductive Event where
  | mkOutputDir (mode : Nat)
  | processStack
  | modelLookup (modelFile : String)
  | spawnPool (items : List String)
  | threshold (startYear endYear : Nat)
  | annual (startYear endYear : Nat)
  | package (zipName : String)
  deriving Repr, DecidableEq

/-- How a modelled call ends: a normal return with a status code, an
uncaught Python exception propagating out, or blocking forever on the
result queue. -/
inductive Term where
  | ret (status : Nat)
  | exn
  | hang
  deriving Repr, DecidableEq

/-- Result of a modelled runBurnedArea call: how it ended, the process
working directory at that moment, and the delegated operations that
ran. -/
structure RunResult where
  term : Term
  cwd : String
  events : List Event
  deriving Repr, DecidableEq

/-- Environment oracle for runBurnedArea: the answers the filesystem and
the delegated subsystems give during the run.  srLines are the readlines
of the scene-list file; filteredLines the readlines of input_list.txt
written by the seasonal-summary stage; poolResults the statuses on the
multiprocessing result queue in arrival order; the status oracles take
the year-range arguments they are invoked with. -/
structure BAEnv where
  cwd0 : String
  pathExists : String → Bool
  srLines : List String
  processStackStatus : Nat
  filteredLines : List String
  modelName : Nat → Nat → String
  poolResults : List Nat
  thresholdStatus : Nat → Nat → Nat
  annualStatus : Nat → Nat → Nat

/-- The part of BurnedArea.runBurnedArea from the os.chdir at line 328
onward (the run after eager validation); its events exclude the
possible output-directory creation, which the wrapper prepends.  Every
return statement of the source is mirrored with the working directory
the process has at that moment: the source saves mydir before the chdir
(lines 325-328) and restores it on most exits, but not on the
model-file-missing return (line 434) nor on the regression-failure
return (line 481).  input_list.txt is assumed readable after a
successful seasonal-summary stage. -/
def runBurnedAreaStages (output_dir model_dir : String) (env : BAEnv) : RunResult :=
  -- os.chdir(output_dir): from here the process cwd is output_dir
  if env.srLines.length = 0 then ⟨.ret ERROR, env.cwd0, []⟩
  else
    match stackPathRow env.srLines with
    | none => ⟨.exn, output_dir, []⟩
    | some (path, row) =>
      match scanYears env.srLines 9999 0 with
      | none => ⟨.exn, output_dir, []⟩
      | some (start_year, end_year) =>
        if start_year < 1984 then ⟨.ret ERROR, env.cwd0, []⟩
        else if end_year < 1984 then ⟨.ret ERROR, env.cwd0, []⟩
        else if end_year < start_year then ⟨.ret ERROR, env.cwd0, []⟩
        else
          let ev1 := [Event.processStack]
          if env.processStackStatus = SUCCESS then
            if env.filteredLines.length = 0 then ⟨.ret ERROR, env.cwd0, ev1⟩
            else
              let model_file := model_dir ++ "/" ++ env.modelName path row
              let ev2 := ev1 ++ [Event.modelLookup model_file]
              if env.pathExists model_file = false then
                -- source line 434: return ERROR with no chdir back
                ⟨.ret ERROR, output_dir, ev2⟩
              else
                match buildWorkItems env.filteredLines start_year with
                | none => ⟨.exn, output_dir, ev2⟩
                | some items =>
                  let ev3 := ev2 ++ [Event.spawnPool items]
                  match collectResults env.poolResults items.length with
                  | none => ⟨.hang, output_dir, ev3⟩
                  | some false =>
                    -- source line 481: return ERROR with no chdir back
                    ⟨.ret ERROR, output_dir, ev3⟩
                  | some true =>
                    let ev4 := ev3 ++ [Event.threshold (start_year + 1) end_year]
                    if env.thresholdStatus (start_year + 1) end_year = SUCCESS then
                      let ev5 := ev4 ++ [Event.annual (start_year + 1) end_year]
                      if env.annualStatus (start_year + 1) end_year = SUCCESS then
                        let zip_file :=
                          "burned_area_" ++ format3 path ++ "_" ++ format3 row ++ ".zip"
                        let ev6 := ev5 ++ [Event.package zip_file]
                        if env.pathExists zip_file = false then ⟨.ret ERROR, env.cwd0, ev6⟩
                        else ⟨.ret SUCCESS, env.cwd0, ev6⟩
                      else ⟨.ret ERROR, env.cwd0, ev5⟩
                    else ⟨.ret ERROR, env.cwd0, ev4⟩
          else ⟨.ret ERROR, env.cwd0, ev1⟩

/-- Shallow embedding of BurnedArea.runBurnedArea (do_burned_area.py
lines 304-522) for a programmatic call (sr_list_file given, so the
command-line branch is not taken): the eager validations of lines
304-321 (with os.makedirs on a missing output directory assumed to
succeed), then the staged run, whose events follow the possible
directory-creation event. -/
def runBurnedArea (sr_list_file input_dir output_dir model_dir : String)
    (env : BAEnv) : RunResult :=
  if env.pathExists sr_list_file = false then ⟨.ret ERROR, env.cwd0, []⟩
  else if env.pathExists input_dir = false then ⟨.ret ERROR, env.cwd0, []⟩
  else
    let ev0 : List Event :=
      if env.pathExists output_dir = false then [.mkOutputDir 493] else []
    if env.pathExists model_dir = false then ⟨.ret ERROR, env.cwd0, ev0⟩
    else
      let r := runBurnedAreaStages output_dir model_dir env
      ⟨r.term, r.cwd, ev0 ++ r.events⟩

/-- One fully successful two-scene environment used by several witnesses:
every path exists, both delegated subsystems succeed, and the single
regression job succeeds. -/
def envOK : BAEnv where
  cwd0 := "/home/user"
  pathExists := fun _ => true
  srLines := ["/in/LT50350322001237LGS01.xml\n", "/in/LT50350322002237LGS01.xml\n"]
  processStackStatus := SUCCESS
  filteredLines := ["/in/LT50350322001237LGS01.xml\n", "/in/LT50350322002237LGS01.xml\n"]
  modelName := fun _ _ => "m.xml"
  poolResults := [SUCCESS]
  thresholdStatus := fun _ _ => SUCCESS
  annualStatus := fun _ _ => SUCCESS

example :
    runBurnedArea "list.txt" "/in" "/out" "/models" envOK =
      ⟨.ret SUCCESS, "/home/user",
        [.processStack, .modelLookup "/models/m.xml",
         .spawnPool ["/in/LT50350322002237LGS01.xml"],
         .threshold 2002 2002, .annual 2002 2002,
         .package "burned_area_035_032.zip"]⟩ := by decide

/-- State of the regression worker pool: the shared work queue, the
shared result queue in arrival order, and which of the spawned worker
processes are still running. -/
structure PoolState (α : Type) where
  queue : List α
  results : List Nat
  active : List Bool
  deriving Repr, DecidableEq

/-- Initial pool state: all items enqueued before any worker starts
(do_burned_area.py lines 443-473), workerCount workers spawned. -/
def poolInit (items : List α) (workerCount : Nat) : PoolState α :=
  ⟨items, [], List.replicate workerCount true⟩

/-- One scheduling step giving worker w the processor, mirroring the
loop body of parallelSceneRegressionWorker.run (do_burned_area.py lines
46-64): an exited worker does nothing; a running worker exits exactly
when its non-blocking dequeue finds the queue empty, and otherwise runs
the job on the dequeued item and appends the returned status to the
result queue, whatever that status is. -/
def poolStep (jobFn : α → Nat) (s : PoolState α) (w : Nat) : PoolState α :=
  if s.active.getD w false = false then s
  else
    match s.queue with
    | [] => ⟨[], s.results, s.active.set w false⟩
    | x :: rest => ⟨rest, s.results ++ [jobFn x], s.active⟩

/-- Run the pool under an arbitrary interleaving of workers. -/
def poolRun (jobFn : α → Nat) (s : PoolState α) (sched : List Nat) : PoolState α :=
  sched.foldl (poolStep jobFn) s

example :
    poolRun (fun x => if x = "a" then ERROR else SUCCESS)
      (poolInit ["a", "b"] 2) [0, 1, 0, 1] =
      ⟨[], [ERROR, SUCCESS], [false, false]⟩ := by decide

/-- Environment oracle for one sceneBoostedRegression job: whether the
shared config directory exists, whether os.makedirs raises, whether the
directory exists when rechecked after the race, and the statuses of the
two delegated calls. -/
structure SceneEnv where
  configDirExists : Bool
  makedirsRaises : Bool
  configDirExistsAfterRace : Bool
  genConfigStatus : Nat
  regressionStatus : Nat
  deriving Repr, DecidableEq

/-- Result of one sceneBoostedRegression job: the returned status and
whether the job descriptor (the unique config file) is still on disk at
return. -/
structure SceneResult where
  status : Nat
  descriptorOnDisk : Bool
  deriving Repr, DecidableEq

/-- Shallow embedding of BurnedArea.sceneBoostedRegression
(do_burned_area.py lines 84-161).  The NamedTemporaryFile with delete
set is closed immediately, so only its name survives; the descriptor is
written by runGenerateConfig only when that call succeeds (every error
return of generate_boosted_regression_config.py precedes the open call,
see runGenerateConfig below), and os.remove runs only on the success
path (line 159) — the regression-failure return at line 156 leaves the
descriptor on disk. -/
def sceneBoostedRegression (env : SceneEnv) : SceneResult :=
  let dirOk :=
    if env.configDirExists then true
    else if env.makedirsRaises then env.configDirExistsAfterRace
    else true
  if dirOk = false then ⟨ERROR, false⟩
  else if env.genConfigStatus = SUCCESS then
    if env.regressionStatus = SUCCESS then ⟨SUCCESS, false⟩
    else ⟨ERROR, true⟩
  else ⟨ERROR, false⟩

/-- Environment oracle for runGenerateConfig: the os.path.exists
answers. -/
structure GenEnv where
  pathExists : String → Bool

/-- Shallow embedding of BoostedRegressionConfig.runGenerateConfig
(generate_boosted_regression_config.py lines 136-199) for a programmatic
call.  Returns the status and the lines written to the configuration
file, an empty list when no file was created (every error return
precedes the open call). -/
def runGenerateConfig (seasonal_sum_dir input_base_file input_mask_file
    output_dir model_file : String) (env : GenEnv) : Nat × List String :=
  if env.pathExists seasonal_sum_dir = false then (ERROR, [])
  else if env.pathExists (input_base_file ++ "_sr_band1.img") = false then (ERROR, [])
  else if env.pathExists input_mask_file = false then (ERROR, [])
  else if env.pathExists model_file = false then (ERROR, [])
  else if env.pathExists output_dir = false then (ERROR, [])
  else
    let base_file := basename input_base_file
    let output_file := output_dir ++ "/" ++ base_file ++ "_burn_probability.img"
    (SUCCESS,
      ["INPUT_BASE_FILE=" ++ input_base_file,
       "INPUT_MASK_FILE=" ++ input_mask_file,
       "INPUT_FILL_VALUE=-9999",
       "SEASONAL_SUMMARIES_DIR=" ++ seasonal_sum_dir,
       "OUTPUT_IMG_FILE=" ++ output_file,
       "LOAD_MODEL_XML=" ++ model_file])

/-- Environment oracle for runBoostedRegression: the caller's working
directory, the BIN environment variable, whether the config file is a
file, the OS-resolved directory of the config file (dirname of abspath),
whether that directory is writable, and whether the external
predict_burned_area process exits zero. -/
structure RegEnv where
  cwd0 : String
  binEnv : Option String
  isFile : Bool
  configdir : String
  writable : Bool
  execOk : Bool

/-- How a runBoostedRegression call ends. -/
inductive RegTerm where
  | ret (status : Nat)
  | exn
  deriving Repr, DecidableEq

/-- Result of a modelled runBoostedRegression call: how it ended, the
working directory at that moment, and every os.chdir target in order. -/
structure RegResult where
  term : RegTerm
  cwd : String
  chdirTrace : List String
  deriving Repr, DecidableEq

/-- Shallow embedding of BoostedRegression.runBoostedRegression
(do_boosted_regression.py lines 87-142) for a programmatic call.  With
usebin set and BIN unset the string concatenation bin_dir plus slash
raises (modelled as exn) before any check; the config-file and
writability checks both return ERROR before any os.chdir; after the
chdir to the config directory, both the subprocess-failure handler
(line 135) and the success path (line 141) chdir back to the saved
directory. -/
def runBoostedRegression (usebin : Bool) (env : RegEnv) : RegResult :=
  match (if usebin then env.binEnv.map (fun b => b ++ "/") else some "") with
  | none => ⟨.exn, env.cwd0, []⟩
  | some _bin_dir =>
    if env.isFile = false then ⟨.ret ERROR, env.cwd0, []⟩
    else if env.writable = false then ⟨.ret ERROR, env.cwd0, []⟩
    else if env.execOk then ⟨.ret SUCCESS, env.cwd0, [env.configdir, env.cwd0]⟩
    else ⟨.ret ERROR, env.cwd0, [env.configdir, env.cwd0]⟩

/-! ### Worker-pool lemmas -/

theorem poolStep_inv (jobFn : α → Nat) (s : PoolState α) (w : Nat) :
    (poolStep jobFn s w).results ++ ((poolStep jobFn s w).queue).map jobFn =
      s.results ++ s.queue.map jobFn := by
  unfold poolStep
  split
  · rfl
  · cases h : s.queue with
    | nil => simp [h]
    | cons x rest => simp [h]

theorem poolRun_inv (jobFn : α → Nat) (sched : List Nat) :
    ∀ s : PoolState α,
      (poolRun jobFn s sched).results ++ ((poolRun jobFn s sched).queue).map jobFn =
        s.results ++ s.queue.map jobFn := by
  induction sched with
  | nil => intro s; rfl
  | cons w ws ih =>
    intro s
    have h1 : poolRun jobFn s (w :: ws) = poolRun jobFn (poolStep jobFn s w) ws := rfl
    rw [h1, ih (poolStep jobFn s w), poolStep_inv]

theorem collectResults_all_success :
    ∀ l : List Nat, (∀ x ∈ l, x = SUCCESS) → collectResults l l.length = some true := by
  intro l
  induction l with
  | nil => intro _; rfl
  | cons s rest ih =>
    intro h
    have hs : s = SUCCESS := h s (List.mem_cons_self s rest)
    simp only [List.length_cons, collectResults, hs, if_pos rfl]
    exact ih (fun x hx => h x (List.mem_cons_of_mem s hx))

theorem collectResults_first_failure :
    ∀ l : List Nat, (∃ x ∈ l, x ≠ SUCCESS) → collectResults l l.length = some false := by
  intro l
  induction l with
  | nil => rintro ⟨x, hx, _⟩; exact absurd hx (List.not_mem_nil x)
  | cons s rest ih =>
    rintro ⟨x, hx, hxe⟩
    by_cases hs : s = SUCCESS
    · simp only [List.length_cons, collectResults, hs, if_pos rfl]
      rcases List.mem_cons.mp hx with h | h
      · exact absurd (h ▸ hs) hxe
      · exact ih ⟨x, h, hxe⟩
    · simp only [List.length_cons, collectResults, if_neg hs]

/-- C2 counterexample: with two enqueued items whose jobs return ERROR
then SUCCESS, the pool deposits two results, but the controller's
collection loop performs only one result_queue.get before returning, so
it does not collect exactly K = 2 status results. -/
theorem controller_collects_fewer_results_than_tasks :
    (poolRun (fun x => if x = "a" then ERROR else SUCCESS)
        (poolInit ["a", "b"] 1) [0, 0, 0]).results = [ERROR, SUCCESS]
  ∧ collectCount [ERROR, SUCCESS] 2 = 1
  ∧ (1 : Nat) ≠ 2 := by decide

/-- C2 (amended): for any K work items, any worker count and any
interleaving that drains the queue, the pool itself runs to completion
and deposits exactly K statuses (one per item, in consumption order)
even when some job calls return failure; the controller, however,
collects all K results only when every status is SUCCESS — on a failure
status it reports the stage failed immediately, without draining the
remaining results. -/
theorem pool_drains_controller_stops_at_first_failure
    (items : List String) (jobFn : String → Nat) (workerCount : Nat)
    (sched : List Nat)
    (hdone : (poolRun jobFn (poolInit items workerCount) sched).queue = []) :
    (poolRun jobFn (poolInit items workerCount) sched).results = items.map jobFn
  ∧ (poolRun jobFn (poolInit items workerCount) sched).results.length = items.length
  ∧ ((∀ x ∈ items, jobFn x = SUCCESS) →
       collectResults (items.map jobFn) items.length = some true)
  ∧ ((∃ x ∈ items, jobFn x ≠ SUCCESS) →
       collectResults (items.map jobFn) items.length = some false) := by
  have hinv := poolRun_inv jobFn sched (poolInit items workerCount)
  rw [hdone] at hinv
  have h0 : (poolInit items workerCount : PoolState String).results = [] := rfl
  have h1 : (poolInit items workerCount : PoolState String).queue = items := rfl
  rw [h0, h1] at hinv
  simp only [List.map_nil, List.append_nil, List.nil_append] at hinv
  refine ⟨hinv, by rw [hinv, List.length_map], ?_, ?_⟩
  · intro hall
    have h := collectResults_all_success (items.map jobFn)
      (by intro x hx; rcases List.mem_map.mp hx with ⟨a, ha, rfl⟩; exact hall a ha)
    rwa [List.length_map] at h
  · rintro ⟨x, hx, hxe⟩
    have h := collectResults_first_failure (items.map jobFn)
      ⟨jobFn x, List.mem_map_of_mem jobFn hx, hxe⟩
    rwa [List.length_map] at h

/-- Witness for C2: instantiated at two items with one failing job and a
single worker. -/
theorem pool_drains_controller_stops_at_first_failure_witness :
    (poolRun (fun x => if x = "b" then ERROR else SUCCESS)
        (poolInit ["a", "b"] 1) [0, 0, 0]).results =
      ["a", "b"].map (fun x => if x = "b" then ERROR else SUCCESS) :=
  (pool_drains_controller_stops_at_first_failure ["a", "b"]
    (fun x => if x = "b" then ERROR else SUCCESS) 1 [0, 0, 0] (by decide)).1

/-- C3 counterexample: when config generation succeeds and the external
regression executable exits non-zero, sceneBoostedRegression returns the
error status but the job descriptor is still on disk — it is not deleted
on this exit path. -/
theorem descriptor_not_deleted_on_regression_failure :
    sceneBoostedRegression ⟨true, false, false, SUCCESS, ERROR⟩ =
      ⟨ERROR, true⟩ := by decide

/-- C3 (amended): the job descriptor is deleted before returning only on
the success path; on config-generation failure no descriptor was ever
written; and when the external regression executable exits non-zero the
job returns the error status with the descriptor left on disk. -/
theorem sceneBoostedRegression_descriptor_cleanup (env : SceneEnv) :
    ((sceneBoostedRegression env).status = SUCCESS →
       (sceneBoostedRegression env).descriptorOnDisk = false)
  ∧ (env.genConfigStatus ≠ SUCCESS →
       (sceneBoostedRegression env).descriptorOnDisk = false)
  ∧ (env.configDirExists = true → env.genConfigStatus = SUCCESS →
       env.regressionStatus ≠ SUCCESS →
       sceneBoostedRegression env = ⟨ERROR, true⟩) := by
  obtain ⟨cde, mr, cdr, g, r⟩ := env
  by_cases hg : g = SUCCESS <;> by_cases hr : r = SUCCESS <;>
    cases cde <;> cases mr <;> cases cdr <;>
    simp_all [sceneBoostedRegression, SUCCESS, ERROR]

/-- Witness for C3: a concrete environment on the regression-failure
path. -/
theorem sceneBoostedRegression_descriptor_cleanup_witness :
    sceneBoostedRegression ⟨true, true, true, SUCCESS, ERROR⟩ = ⟨ERROR, true⟩ :=
  (sceneBoostedRegression_descriptor_cleanup
    ⟨true, true, true, SUCCESS, ERROR⟩).2.2 rfl rfl (by decide)

/-- C1: the source's own comment (do_burned_area.py lines 323-324) says
the working directory is saved for return upon error or completion, but
two error exits skip the restoring chdir: the model-file-missing return
(line 434) and the regression-failure return (line 481).  Both runs
below start in /home/user, chdir to /out, and return ERROR with the
process still in /out. -/
theorem runBurnedArea_cwd_not_restored_on_model_and_pool_failure :
    (runBurnedArea "list.txt" "/in" "/out" "/models"
        { envOK with pathExists := fun s => !(s == "/models/m.xml") } =
      ⟨.ret ERROR, "/out", [.processStack, .modelLookup "/models/m.xml"]⟩)
  ∧ (runBurnedArea "list.txt" "/in" "/out" "/models"
        { envOK with poolResults := [ERROR] } =
      ⟨.ret ERROR, "/out",
        [.processStack, .modelLookup "/models/m.xml",
         .spawnPool ["/in/LT50350322002237LGS01.xml"]]⟩)
  ∧ envOK.cwd0 = "/home/user"
  ∧ ("/out" : String) ≠ "/home/user" := by decide

/-! ### Resolver lemmas: digit bounds and min/max folds -/

theorem digitVal_le_9 (c : Char) (d : Nat) (h : digitVal c = some d) : d ≤ 9 := by
  unfold digitVal at h
  split at h
  · rename_i hc
    injection h with h
    omega
  · exact absurd h (by simp)

theorem digitsVal_lt (cs : List Char) :
    ∀ acc v, digitsVal cs acc = some v → v < (acc + 1) * 10 ^ cs.length := by
  induction cs with
  | nil =>
    intro acc v h
    injection h with h
    simp [h.symm]
  | cons c cs ih =>
    intro acc v h
    unfold digitsVal at h
    cases hd : digitVal c with
    | none => rw [hd] at h; exact absurd h (by simp)
    | some d =>
      rw [hd] at h
      have hv := ih (acc * 10 + d) v h
      have hd9 := digitVal_le_9 c d hd
      have h10 : acc * 10 + d + 1 ≤ (acc + 1) * 10 := by omega
      have hstep : (acc * 10 + d + 1) * 10 ^ cs.length ≤ (acc + 1) * 10 ^ (cs.length + 1) := by
        calc (acc * 10 + d + 1) * 10 ^ cs.length
            ≤ (acc + 1) * 10 * 10 ^ cs.length := Nat.mul_le_mul_right _ h10
          _ = (acc + 1) * 10 ^ (cs.length + 1) := by rw [pow_succ]; ring
      rw [List.length_cons]
      omega

theorem parseNat_lt (s : String) (v : Nat) (h : parseNat s = some v) :
    v < 10 ^ s.toList.length := by
  unfold parseNat at h
  split at h
  · exact absurd h (by simp)
  · have := digitsVal_lt s.toList 0 v h
    simpa using this

theorem sceneYear_le_9999 (f : String) (y : Nat) (h : sceneYear f = some y) :
    y ≤ 9999 := by
  unfold sceneYear at h
  have hlt := parseNat_lt _ _ h
  have hlen : (pySlice (sceneName f) 9 13).toList.length ≤ 4 := by
    show (((sceneName f).toList.drop 9).take (13 - 9)).length ≤ 4
    calc (((sceneName f).toList.drop 9).take (13 - 9)).length
        ≤ 13 - 9 := List.length_take_le _ _
      _ = 4 := rfl
  have : (10 : Nat) ^ (pySlice (sceneName f) 9 13).toList.length ≤ 10 ^ 4 :=
    Nat.pow_le_pow_right (by omega) hlen
  omega

theorem stackYears_le_9999 :
    ∀ lines ys, stackYears lines = some ys → ∀ y ∈ ys, y ≤ 9999 := by
  intro lines
  induction lines with
  | nil =>
    intro ys h y hy
    injection h with h
    rw [← h] at hy
    exact absurd hy (List.not_mem_nil y)
  | cons l rest ih =>
    intro ys h y hy
    unfold stackYears at h
    cases h1 : sceneYear (rstripLf l) with
    | none => rw [h1] at h; exact absurd h (by simp)
    | some y0 =>
      cases h2 : stackYears rest with
      | none => rw [h1, h2] at h; exact absurd h (by simp)
      | some ys0 =>
        rw [h1, h2] at h
        injection h with h
        rw [← h] at hy
        rcases List.mem_cons.mp hy with rfl | hmem
        · exact sceneYear_le_9999 _ _ h1
        · exact ih ys0 h2 y hmem

theorem foldl_min_le_init (ys : List Nat) : ∀ a, ys.foldl Nat.min a ≤ a := by
  induction ys with
  | nil => intro a; exact Nat.le_refl a
  | cons z zs ih =>
    intro a
    calc (z :: zs).foldl Nat.min a = zs.foldl Nat.min (Nat.min a z) := rfl
      _ ≤ Nat.min a z := ih _
      _ ≤ a := Nat.min_le_left a z

theorem foldl_min_le (ys : List Nat) : ∀ a, ∀ y ∈ ys, ys.foldl Nat.min a ≤ y := by
  induction ys with
  | nil => intro a y hy; exact absurd hy (List.not_mem_nil y)
  | cons z zs ih =>
    intro a y hy
    rcases List.mem_cons.mp hy with rfl | hmem
    · calc (y :: zs).foldl Nat.min a = zs.foldl Nat.min (Nat.min a y) := rfl
        _ ≤ Nat.min a y := foldl_min_le_init zs _
        _ ≤ y := Nat.min_le_right a y
    · exact ih (Nat.min a z) y hmem

theorem foldl_min_mem (ys : List Nat) :
    ∀ a, ys.foldl Nat.min a = a ∨ ys.foldl Nat.min a ∈ ys := by
  induction ys with
  | nil => intro a; exact Or.inl rfl
  | cons z zs ih =>
    intro a
    have hz : (z :: zs).foldl Nat.min a = zs.foldl Nat.min (Nat.min a z) := rfl
    rcases ih (Nat.min a z) with h | h
    · rcases Nat.le_total a z with hle | hle
      · left
        rw [hz, h]
        show min a z = a
        exact min_eq_left hle
      · right
        rw [hz, h]
        have hmz : Nat.min a z = z := min_eq_right hle
        rw [hmz]
        exact List.mem_cons_self z zs
    · right
      rw [hz]
      exact List.mem_cons_of_mem z h

theorem foldl_max_ge_init (ys : List Nat) : ∀ a, a ≤ ys.foldl Nat.max a := by
  induction ys with
  | nil => intro a; exact Nat.le_refl a
  | cons z zs ih =>
    intro a
    calc a ≤ Nat.max a z := Nat.le_max_left a z
      _ ≤ zs.foldl Nat.max (Nat.max a z) := ih _
      _ = (z :: zs).foldl Nat.max a := rfl

theorem foldl_max_ge (ys : List Nat) : ∀ a, ∀ y ∈ ys, y ≤ ys.foldl Nat.max a := by
  induction ys with
  | nil => intro a y hy; exact absurd hy (List.not_mem_nil y)
  | cons z zs ih =>
    intro a y hy
    rcases List.mem_cons.mp hy with rfl | hmem
    · calc y ≤ Nat.max a y := Nat.le_max_right a y
        _ ≤ zs.foldl Nat.max (Nat.max a y) := foldl_max_ge_init zs _
        _ = (y :: zs).foldl Nat.max a := rfl
    · exact ih (Nat.max a z) y hmem

theorem foldl_max_mem (ys : List Nat) :
    ∀ a, ys.foldl Nat.max a = a ∨ ys.foldl Nat.max a ∈ ys := by
  induction ys with
  | nil => intro a; exact Or.inl rfl
  | cons z zs ih =>
    intro a
    have hz : (z :: zs).foldl Nat.max a = zs.foldl Nat.max (Nat.max a z) := rfl
    rcases ih (Nat.max a z) with h | h
    · rcases Nat.le_total a z with hle | hle
      · right
        rw [hz, h]
        have hmz : Nat.max a z = z := max_eq_right hle
        rw [hmz]
        exact List.mem_cons_self z zs
      · left
        rw [hz, h]
        show max a z = a
        exact max_eq_left hle
    · right
      rw [hz]
      exact List.mem_cons_of_mem z h

theorem ite_lt_eq_min (y sy : Nat) : (if y < sy then y else sy) = Nat.min sy y := by
  show _ = min sy y
  split
  · exact (min_eq_right (by omega)).symm
  · exact (min_eq_left (by omega)).symm

theorem ite_gt_eq_max (y ey : Nat) : (if ey < y then y else ey) = Nat.max ey y := by
  show _ = max ey y
  split
  · exact (max_eq_right (by omega)).symm
  · exact (max_eq_left (by omega)).symm

theorem scanYears_fold (lines : List String) :
    ∀ sy ey, scanYears lines sy ey =
      (stackYears lines).map (fun ys => (ys.foldl Nat.min sy, ys.foldl Nat.max ey)) := by
  induction lines with
  | nil => intro sy ey; rfl
  | cons l rest ih =>
    intro sy ey
    unfold scanYears stackYears
    cases h1 : sceneYear (rstripLf l) with
    | none => rfl
    | some y =>
      dsimp only
      rw [ite_lt_eq_min, ite_gt_eq_max, ih]
      cases h2 : stackYears rest with
      | none => rfl
      | some ys => rfl

theorem stackYears_cons_shape (l : String) (rest : List String) (ys : List Nat)
    (h : stackYears (l :: rest) = some ys) : ∃ y0 tl, ys = y0 :: tl := by
  unfold stackYears at h
  cases h1 : sceneYear (rstripLf l) with
  | none => rw [h1] at h; exact absurd h (by simp)
  | some y =>
    cases h2 : stackYears rest with
    | none => rw [h1, h2] at h; exact absurd h (by simp)
    | some tl =>
      rw [h1, h2] at h
      injection h with h
      exact ⟨y, tl, h.symm⟩

/-- C4: scene names resolve by fixed-offset slicing (path at [3:6], row
at [6:9], year at [9:13] of the basename with the xml suffix removed,
so LT50350322002237LGS01 gives path 035, row 032, year 2002); for a
non-empty scene list, start_year is the minimum and end_year the
maximum of the extracted years, and path/row are taken from the first
entry only. -/
theorem resolver_offsets_and_year_bounds
    (l0 : String) (rest : List String) (ys : List Nat) (sy ey p rw0 : Nat)
    (hys : stackYears (l0 :: rest) = some ys)
    (hscan : scanYears (l0 :: rest) 9999 0 = some (sy, ey))
    (hpr : stackPathRow (l0 :: rest) = some (p, rw0)) :
    (scenePath "LT50350322002237LGS01" = some 35
      ∧ sceneRow "LT50350322002237LGS01" = some 32
      ∧ sceneYear "LT50350322002237LGS01" = some 2002
      ∧ format3 35 = "035" ∧ format3 32 = "032")
  ∧ (sy ∈ ys ∧ ∀ y ∈ ys, sy ≤ y)
  ∧ (ey ∈ ys ∧ ∀ y ∈ ys, y ≤ ey)
  ∧ stackPathRow [l0] = some (p, rw0) := by
  have hfold := scanYears_fold (l0 :: rest) 9999 0
  rw [hys] at hfold
  rw [hfold] at hscan
  simp only [Option.map_some'] at hscan
  injection hscan with hpair
  have hsy : ys.foldl Nat.min 9999 = sy := congrArg Prod.fst hpair
  have hey : ys.foldl Nat.max 0 = ey := congrArg Prod.snd hpair
  obtain ⟨y0, tl, rfl⟩ := stackYears_cons_shape l0 rest ys hys
  have hy0 : y0 ∈ y0 :: tl := List.mem_cons_self y0 tl
  have hle9999 := stackYears_le_9999 (l0 :: rest) (y0 :: tl) hys
  refine ⟨by decide, ⟨?_, ?_⟩, ⟨?_, ?_⟩, hpr⟩
  · rcases foldl_min_mem (y0 :: tl) 9999 with h | h
    · have h1 : (y0 :: tl).foldl Nat.min 9999 ≤ y0 := foldl_min_le _ _ y0 hy0
      have h2 : y0 ≤ 9999 := hle9999 y0 hy0
      have h3 : y0 = 9999 := by omega
      rw [← hsy, h, ← h3]
      exact hy0
    · rw [← hsy]; exact h
  · intro y hy
    rw [← hsy]
    exact foldl_min_le _ _ y hy
  · rcases foldl_max_mem (y0 :: tl) 0 with h | h
    · have h1 : y0 ≤ (y0 :: tl).foldl Nat.max 0 := foldl_max_ge _ _ y0 hy0
      have h3 : y0 = 0 := by omega
      rw [← hey, h, ← h3]
      exact hy0
    · rw [← hey]; exact h
  · intro y hy
    rw [← hey]
    exact foldl_max_ge _ _ y hy

/-- Witness for C4: a two-scene stack spanning 2001-2002. -/
theorem resolver_offsets_and_year_bounds_witness :
    sceneYear "LT50350322002237LGS01" = some 2002 ∧ (2001 : Nat) ∈ [2001, 2002] :=
  let h := resolver_offsets_and_year_bounds "/in/LT50350322001237LGS01.xml\n"
    ["/in/LT50350322002237LGS01.xml\n"] [2001, 2002] 2001 2002 35 32
    (by decide) (by decide) (by decide)
  ⟨h.1.2.2.1, h.2.1.1⟩

theorem buildWorkItems_filter :
    ∀ (lines : List String) (sy : Nat) (items : List String),
      buildWorkItems lines sy = some items →
      items = (lines.map rstripLf).filter (fun x => sceneYear x ≠ some sy) := by
  intro lines
  induction lines with
  | nil =>
    intro sy items h
    injection h with h
    simp [← h]
  | cons l rest ih =>
    intro sy items h
    unfold buildWorkItems at h
    cases h1 : sceneYear (rstripLf l) with
    | none => rw [h1] at h; exact absurd h (by simp)
    | some y =>
      rw [h1] at h
      cases h2 : buildWorkItems rest sy with
      | none => rw [h2] at h; exact absurd h (by simp)
      | some tail =>
        rw [h2] at h
        dsimp only at h
        have htail := ih sy tail h2
        by_cases hy : y = sy
        · rw [if_pos hy] at h
          injection h with h
          subst hy
          simp [List.filter_cons, h1, ← h, htail]
        · rw [if_neg hy] at h
          injection h with h
          simp [List.filter_cons, h1, hy, ← h, htail]

/-- Forwarding lemma: under the guards that take a run to the regression
pool (all eager validations pass, the scene list parses with a valid
year range, the seasonal-summary stage succeeds, the filtered list is
non-empty, the model file exists, and the work items build), the run
equals the pool-collection tail exactly. -/
theorem runBurnedArea_reach_pool
    (f i o m : String) (env : BAEnv) (p rw0 sy ey : Nat) (items : List String)
    (hsr : env.pathExists f = true) (hin : env.pathExists i = true)
    (hout : env.pathExists o = true) (hmd : env.pathExists m = true)
    (hne : env.srLines.length ≠ 0)
    (hpr : stackPathRow env.srLines = some (p, rw0))
    (hscan : scanYears env.srLines 9999 0 = some (sy, ey))
    (hsy : ¬ sy < 1984) (hey : ¬ ey < 1984) (hord : ¬ ey < sy)
    (hps : env.processStackStatus = SUCCESS)
    (hfl : env.filteredLines.length ≠ 0)
    (hmf : env.pathExists (m ++ "/" ++ env.modelName p rw0) = true)
    (hitems : buildWorkItems env.filteredLines sy = some items) :
    runBurnedArea f i o m env =
      (match collectResults env.poolResults items.length with
       | none => ⟨.hang, o,
           [.processStack, .modelLookup (m ++ "/" ++ env.modelName p rw0),
            .spawnPool items]⟩
       | some false => ⟨.ret ERROR, o,
           [.processStack, .modelLookup (m ++ "/" ++ env.modelName p rw0),
            .spawnPool items]⟩
       | some true =>
         if env.thresholdStatus (sy + 1) ey = SUCCESS then
           if env.annualStatus (sy + 1) ey = SUCCESS then
             if env.pathExists ("burned_area_" ++ format3 p ++ "_" ++ format3 rw0 ++ ".zip")
                 = false then
               ⟨.ret ERROR, env.cwd0,
                 [.processStack, .modelLookup (m ++ "/" ++ env.modelName p rw0),
                  .spawnPool items, .threshold (sy + 1) ey, .annual (sy + 1) ey,
                  .package ("burned_area_" ++ format3 p ++ "_" ++ format3 rw0 ++ ".zip")]⟩
             else
               ⟨.ret SUCCESS, env.cwd0,
                 [.processStack, .modelLookup (m ++ "/" ++ env.modelName p rw0),
                  .spawnPool items, .threshold (sy + 1) ey, .annual (sy + 1) ey,
                  .package ("burned_area_" ++ format3 p ++ "_" ++ format3 rw0 ++ ".zip")]⟩
           else
             ⟨.ret ERROR, env.cwd0,
               [.processStack, .modelLookup (m ++ "/" ++ env.modelName p rw0),
                .spawnPool items, .threshold (sy + 1) ey, .annual (sy + 1) ey]⟩
         else
           ⟨.ret ERROR, env.cwd0,
             [.processStack, .modelLookup (m ++ "/" ++ env.modelName p rw0),
              .spawnPool items, .threshold (sy + 1) ey]⟩) := by
  unfold runBurnedArea runBurnedAreaStages
  simp [hsr, hin, hout, hmd, hne, hpr, hscan, hsy, hey, hord, hps, hfl, hmf, hitems]

/-- C5: the regression stage builds its work items from the filtered
scene list written by the seasonal-summary stage (env.filteredLines,
the readlines of input_list.txt) and not from the original scene list;
the enqueued set is exactly the filtered list minus the scenes whose
extracted year equals start_year, and under distinct entries every
remaining scene is enqueued exactly once. -/
theorem regression_items_from_filtered_list
    (f i o m : String) (env : BAEnv) (p rw0 sy ey : Nat) (items : List String)
    (hsr : env.pathExists f = true) (hin : env.pathExists i = true)
    (hout : env.pathExists o = true) (hmd : env.pathExists m = true)
    (hne : env.srLines.length ≠ 0)
    (hpr : stackPathRow env.srLines = some (p, rw0))
    (hscan : scanYears env.srLines 9999 0 = some (sy, ey))
    (hsy : ¬ sy < 1984) (hey : ¬ ey < 1984) (hord : ¬ ey < sy)
    (hps : env.processStackStatus = SUCCESS)
    (hfl : env.filteredLines.length ≠ 0)
    (hmf : env.pathExists (m ++ "/" ++ env.modelName p rw0) = true)
    (hitems : buildWorkItems env.filteredLines sy = some items) :
    Event.spawnPool items ∈ (runBurnedArea f i o m env).events
  ∧ items = (env.filteredLines.map rstripLf).filter (fun x => sceneYear x ≠ some sy)
  ∧ ((env.filteredLines.map rstripLf).Nodup → ∀ x ∈ items, items.count x = 1) := by
  have hrun := runBurnedArea_reach_pool f i o m env p rw0 sy ey items
    hsr hin hout hmd hne hpr hscan hsy hey hord hps hfl hmf hitems
  have hflt := buildWorkItems_filter env.filteredLines sy items hitems
  refine ⟨?_, hflt, ?_⟩
  · rw [hrun]
    cases hc : collectResults env.poolResults items.length with
    | none => simp
    | some b =>
      cases b with
      | false => simp
      | true =>
        dsimp only
        split
        · split
          · split <;> simp
          · simp
        · simp
  · intro hnd x hx
    rw [hflt] at hx ⊢
    exact List.count_eq_one_of_mem (List.Nodup.filter _ hnd) hx

/-- Witness for C5: the two-scene stack of envOK, whose 2001 scene is
excluded and whose 2002 scene is enqueued once. -/
theorem regression_items_from_filtered_list_witness :
    Event.spawnPool ["/in/LT50350322002237LGS01.xml"] ∈
      (runBurnedArea "list.txt" "/in" "/out" "/models" envOK).events
  ∧ ["/in/LT50350322002237LGS01.xml"] =
      (envOK.filteredLines.map rstripLf).filter (fun x => sceneYear x ≠ some 2001) :=
  let h := regression_items_from_filtered_list "list.txt" "/in" "/out" "/models"
    envOK 35 32 2001 2002 ["/in/LT50350322002237LGS01.xml"]
    rfl rfl rfl rfl (by decide) (by decide) (by decide) (by decide) (by decide)
    (by decide) rfl (by decide) rfl (by decide)
  ⟨h.1, h.2.1⟩

/-- C6: when the derived year bounds are invalid — some extracted year
below 1984, or end_year below start_year — the run returns the error
status with the working directory restored, and no processing stage runs
(at most the output-directory creation has happened). -/
theorem invalid_year_range_rejected_before_stages
    (f i o m : String) (env : BAEnv) (ys : List Nat) (p rw0 sy ey : Nat)
    (hsr : env.pathExists f = true) (hin : env.pathExists i = true)
    (hmd : env.pathExists m = true)
    (hne : env.srLines.length ≠ 0)
    (hpr : stackPathRow env.srLines = some (p, rw0))
    (hscan : scanYears env.srLines 9999 0 = some (sy, ey))
    (hys : stackYears env.srLines = some ys)
    (hbad : (∃ y ∈ ys, y < 1984) ∨ ey < sy) :
    (runBurnedArea f i o m env).term = .ret ERROR
  ∧ (runBurnedArea f i o m env).cwd = env.cwd0
  ∧ ∀ e ∈ (runBurnedArea f i o m env).events, e = Event.mkOutputDir 493 := by
  have hscan2 := hscan
  have hfold := scanYears_fold env.srLines 9999 0
  rw [hys] at hfold
  rw [hfold] at hscan2
  simp only [Option.map_some'] at hscan2
  injection hscan2 with hpair
  have hsyv : ys.foldl Nat.min 9999 = sy := congrArg Prod.fst hpair
  have hnotall : sy < 1984 ∨ ey < 1984 ∨ ey < sy := by
    rcases hbad with ⟨y, hy, hylt⟩ | hlt
    · left
      have := foldl_min_le ys 9999 y hy
      omega
    · by_cases h1 : sy < 1984
      · exact Or.inl h1
      · by_cases h2 : ey < 1984
        · exact Or.inr (Or.inl h2)
        · exact Or.inr (Or.inr hlt)
  have hrun : runBurnedArea f i o m env =
      ⟨.ret ERROR, env.cwd0,
        if env.pathExists o = false then [Event.mkOutputDir 493] else []⟩ := by
    unfold runBurnedArea runBurnedAreaStages
    rcases hnotall with h1 | h2 | h3
    · simp [hsr, hin, hmd, hne, hpr, hscan, h1]
    · by_cases h1 : sy < 1984 <;>
        simp [hsr, hin, hmd, hne, hpr, hscan, h1, h2]
    · by_cases h1 : sy < 1984 <;> by_cases h2 : ey < 1984 <;>
        simp [hsr, hin, hmd, hne, hpr, hscan, h1, h2, h3]
  rw [hrun]
  refine ⟨rfl, rfl, ?_⟩
  intro e he
  dsimp only at he
  split at he
  · simpa using he
  · exact absurd he (List.not_mem_nil e)

/-- Witness for C6: a stack whose single scene year 1970 is below
1984. -/
theorem invalid_year_range_rejected_before_stages_witness :
    (runBurnedArea "list.txt" "/in" "/out" "/models"
      { envOK with srLines := ["LT50350321970237LGS01.xml"] }).term = .ret ERROR :=
  (invalid_year_range_rejected_before_stages "list.txt" "/in" "/out" "/models"
    { envOK with srLines := ["LT50350321970237LGS01.xml"] }
    [1970] 35 32 1970 1970 rfl rfl rfl (by decide) (by decide) (by decide)
    (by decide) (Or.inl ⟨1970, by decide, by decide⟩)).1

/-- C7: when the regression stage succeeds, thresholding and annual
aggregation are each invoked over exactly the year range from
start_year + 1 to end_year, and the packaging step produces an archive
named burned_area_path_row.zip with path and row zero-padded to three
digits, returning the error status exactly when that archive does not
exist afterwards. -/
theorem threshold_annual_range_and_packaging
    (f i o m : String) (env : BAEnv) (p rw0 sy ey : Nat) (items : List String)
    (hsr : env.pathExists f = true) (hin : env.pathExists i = true)
    (hout : env.pathExists o = true) (hmd : env.pathExists m = true)
    (hne : env.srLines.length ≠ 0)
    (hpr : stackPathRow env.srLines = some (p, rw0))
    (hscan : scanYears env.srLines 9999 0 = some (sy, ey))
    (hsy : ¬ sy < 1984) (hey : ¬ ey < 1984) (hord : ¬ ey < sy)
    (hps : env.processStackStatus = SUCCESS)
    (hfl : env.filteredLines.length ≠ 0)
    (hmf : env.pathExists (m ++ "/" ++ env.modelName p rw0) = true)
    (hitems : buildWorkItems env.filteredLines sy = some items)
    (hcol : collectResults env.poolResults items.length = some true)
    (hth : env.thresholdStatus (sy + 1) ey = SUCCESS)
    (han : env.annualStatus (sy + 1) ey = SUCCESS) :
    (runBurnedArea f i o m env).events =
      [.processStack, .modelLookup (m ++ "/" ++ env.modelName p rw0),
       .spawnPool items, .threshold (sy + 1) ey, .annual (sy + 1) ey,
       .package ("burned_area_" ++ format3 p ++ "_" ++ format3 rw0 ++ ".zip")]
  ∧ (env.pathExists ("burned_area_" ++ format3 p ++ "_" ++ format3 rw0 ++ ".zip") = false →
       (runBurnedArea f i o m env).term = .ret ERROR)
  ∧ (env.pathExists ("burned_area_" ++ format3 p ++ "_" ++ format3 rw0 ++ ".zip") = true →
       (runBurnedArea f i o m env).term = .ret SUCCESS) := by
  have hrun := runBurnedArea_reach_pool f i o m env p rw0 sy ey items
    hsr hin hout hmd hne hpr hscan hsy hey hord hps hfl hmf hitems
  rw [hcol] at hrun
  dsimp only at hrun
  rw [if_pos hth, if_pos han] at hrun
  refine ⟨?_, ?_, ?_⟩
  · rw [hrun]
    split <;> rfl
  · intro hz
    rw [hrun, if_pos hz]
  · intro hz
    rw [hrun, if_neg (by simp [hz])]

/-- Witness for C7: the fully successful envOK run over years
2002-2002 for path 035, row 032. -/
theorem threshold_annual_range_and_packaging_witness :
    (runBurnedArea "list.txt" "/in" "/out" "/models" envOK).events =
      [.processStack, .modelLookup "/models/m.xml",
       .spawnPool ["/in/LT50350322002237LGS01.xml"],
       .threshold 2002 2002, .annual 2002 2002,
       .package "burned_area_035_032.zip"]
  ∧ (runBurnedArea "list.txt" "/in" "/out" "/models" envOK).term = .ret SUCCESS :=
  let h := threshold_annual_range_and_packaging "list.txt" "/in" "/out" "/models"
    envOK 35 32 2001 2002 ["/in/LT50350322002237LGS01.xml"]
    rfl rfl rfl rfl (by decide) (by decide) (by decide) (by decide) (by decide)
    (by decide) rfl (by decide) rfl (by decide) (by decide) rfl rfl
  ⟨h.1, h.2.2 rfl⟩

/-- C9: a missing scene-list file, input directory or model directory
each aborts immediately with the error status before any stage and
before the chdir, while a missing output directory does not fail eager
validation: it is created with mode octal 755 (decimal 493) and the run
proceeds. -/
theorem eager_validation_output_dir_created
    (f i o m : String) (env : BAEnv) :
    (env.pathExists f = false →
       runBurnedArea f i o m env = ⟨.ret ERROR, env.cwd0, []⟩)
  ∧ (env.pathExists f = true → env.pathExists i = false →
       runBurnedArea f i o m env = ⟨.ret ERROR, env.cwd0, []⟩)
  ∧ (env.pathExists f = true → env.pathExists i = true →
       env.pathExists m = false →
       runBurnedArea f i o m env =
         ⟨.ret ERROR, env.cwd0,
           if env.pathExists o = false then [Event.mkOutputDir 493] else []⟩)
  ∧ (env.pathExists o = false → env.pathExists f = true →
       env.pathExists i = true → env.pathExists m = true →
       Event.mkOutputDir 493 ∈ (runBurnedArea f i o m env).events) := by
  refine ⟨?_, ?_, ?_, ?_⟩
  · intro hf
    unfold runBurnedArea runBurnedAreaStages
    simp [hf]
  · intro hf hi
    unfold runBurnedArea runBurnedAreaStages
    simp [hf, hi]
  · intro hf hi hm
    unfold runBurnedArea runBurnedAreaStages
    simp [hf, hi, hm]
  · intro ho hf hi hm
    unfold runBurnedArea
    simp [hf, hi, hm, ho]

/-- Witness for C9: envOK with only the output directory missing — the
run still records the directory creation. -/
theorem eager_validation_output_dir_created_witness :
    Event.mkOutputDir 493 ∈
      (runBurnedArea "list.txt" "/in" "/out" "/models"
        { envOK with pathExists := fun s => !(s == "/out") }).events :=
  (eager_validation_output_dir_created "list.txt" "/in" "/out" "/models"
    { envOK with pathExists := fun s => !(s == "/out") }).2.2.2 rfl rfl rfl rfl

/-- C8 counterexample: the OUTPUT_IMG_FILE value carries the img
extension — for output directory /out and base file
/in/refl/LT50350322002237LGS01 the written line is
OUTPUT_IMG_FILE=/out/LT50350322002237LGS01_burn_probability.img, not
the extensionless form the claim derives. -/
theorem output_img_file_has_img_suffix :
    (runGenerateConfig "/in" "/in/refl/LT50350322002237LGS01"
        "/in/mask/LT50350322002237LGS01_mask.img" "/out" "/models/m.xml"
        ⟨fun _ => true⟩).2.get? 4 =
      some "OUTPUT_IMG_FILE=/out/LT50350322002237LGS01_burn_probability.img"
  ∧ ("OUTPUT_IMG_FILE=/out/LT50350322002237LGS01_burn_probability.img" : String) ≠
      "OUTPUT_IMG_FILE=/out/LT50350322002237LGS01_burn_probability" := by decide

/-- C8 (amended): a successful runGenerateConfig writes exactly six
KEY=VALUE lines, in order INPUT_BASE_FILE, INPUT_MASK_FILE,
INPUT_FILL_VALUE with the fixed value -9999, SEASONAL_SUMMARIES_DIR,
OUTPUT_IMG_FILE derived as output_dir/scene_base_burn_probability.img
(scene_base the basename of the input base file), and LOAD_MODEL_XML. -/
theorem config_lines_exact
    (ssdir base mask odir model : String) (env : GenEnv)
    (h1 : env.pathExists ssdir = true)
    (h2 : env.pathExists (base ++ "_sr_band1.img") = true)
    (h3 : env.pathExists mask = true)
    (h4 : env.pathExists model = true)
    (h5 : env.pathExists odir = true) :
    runGenerateConfig ssdir base mask odir model env =
      (SUCCESS,
        ["INPUT_BASE_FILE=" ++ base,
         "INPUT_MASK_FILE=" ++ mask,
         "INPUT_FILL_VALUE=-9999",
         "SEASONAL_SUMMARIES_DIR=" ++ ssdir,
         "OUTPUT_IMG_FILE=" ++ odir ++ "/" ++ basename base ++ "_burn_probability.img",
         "LOAD_MODEL_XML=" ++ model]) := by
  unfold runGenerateConfig
  simp only [h1, h2, h3, h4, h5]
  simp [String.append_assoc]

/-- Witness for C8: concrete scene inputs with every path present. -/
theorem config_lines_exact_witness :
    runGenerateConfig "/in" "/in/refl/SCENE" "/in/mask/SCENE_mask.img" "/out"
        "/models/m.xml" ⟨fun _ => true⟩ =
      (SUCCESS,
        ["INPUT_BASE_FILE=/in/refl/SCENE",
         "INPUT_MASK_FILE=/in/mask/SCENE_mask.img",
         "INPUT_FILL_VALUE=-9999",
         "SEASONAL_SUMMARIES_DIR=/in",
         "OUTPUT_IMG_FILE=" ++ "/out" ++ "/" ++ basename "/in/refl/SCENE" ++
           "_burn_probability.img",
         "LOAD_MODEL_XML=/models/m.xml"]) :=
  config_lines_exact "/in" "/in/refl/SCENE" "/in/mask/SCENE_mask.img" "/out"
    "/models/m.xml" ⟨fun _ => true⟩ rfl rfl rfl rfl rfl

/-- C10: runBoostedRegression restores the caller's working directory on
both the success and the subprocess-failure path (the chdir trace is the
config directory followed by the saved directory, and the final cwd is
the saved one), and when the config directory is not writable it returns
the error status before any chdir. -/
theorem runBoostedRegression_cwd_restored
    (usebin : Bool) (env : RegEnv)
    (hbin : usebin = true → env.binEnv.isSome = true) :
    ((runBoostedRegression usebin env).cwd = env.cwd0)
  ∧ (env.isFile = true → env.writable = false →
       runBoostedRegression usebin env = ⟨.ret ERROR, env.cwd0, []⟩)
  ∧ (env.isFile = true → env.writable = true →
       (runBoostedRegression usebin env).chdirTrace = [env.configdir, env.cwd0]
       ∧ (runBoostedRegression usebin env).term =
           .ret (if env.execOk then SUCCESS else ERROR)) := by
  obtain ⟨c0, be, isf, cd, wr, ex⟩ := env
  cases usebin <;> cases be <;> cases isf <;> cases wr <;> cases ex <;>
    simp_all [runBoostedRegression]

/-- Witness for C10: a failing external process with a writable config
directory still ends back in the caller's directory. -/
theorem runBoostedRegression_cwd_restored_witness :
    (runBoostedRegression false
      ⟨"/home/user", none, true, "/in/config", true, false⟩).chdirTrace =
        ["/in/config", "/home/user"]
  ∧ (runBoostedRegression false
      ⟨"/home/user", none, true, "/in/config", true, false⟩).term =
        .ret (if false then SUCCESS else ERROR) :=
  (runBoostedRegression_cwd_restored false
    ⟨"/home/user", none, true, "/in/config", true, false⟩
    (by intro h; exact absurd h (by decide))).2.2 rfl rfl

example : sceneName "LT50350322002237LGS01.xml" = "LT50350322002237LGS01" := by decide
example : scenePath "LT50350322002237LGS01.xml" = some 35 := by decide
example : sceneRow "LT50350322002237LGS01.xml" = some 32 := by decide
example : sceneYear "LT50350322002237LGS01.xml" = some 2002 := by decide
example : format3 35 = "035" := by decide
example : rstripLf "abc\n" = "abc" := by decide
example : basename "/a/b/c.xml" = "c.xml" := by decide

end BurnedArea
